import Mathlib

/-!
Verification of the runtime-orchestration core of the `anthill` microservice
framework (`src/anthill/app.py`), against its natural-language specification.

The embedding models:
* Python `dict` values as insertion-ordered association lists with unique keys
  (`Dict`), with `dict.update` / key deletion translated as `dictUpdate` /
  `List.filter`;
* topics as `List Char`, so that Python's substring test `inc in topic` is
  the list-infix relation `inc <:+: topic`;
* callables as `PyTask` records carrying the answer Python's
  `asyncio.iscoroutinefunction` would give;
* the side effects of `App._start_tasks` (`loop.create_task`,
  `start_thread`, `time.sleep`, `http_server.start_server()`,
  `loop.run_until_complete(asyncio.gather(*tasks))`) as an explicit event
  trace, together with the first raised exception, if any.
-/

namespace Anthill

/-- A topic name; Python's substring test `a in b` on strings becomes
`a <:+: b` on the character lists. -/
abbrev Topic := List Char

/-- Opaque identifier standing for a subscription callback. -/
abbrev Handler := Nat

/-- A Python `dict` of topic → callback, as an insertion-ordered association
list.  CPython dicts preserve insertion order; `update` overwrites the value
of an existing key in place and appends new keys at the end. -/
abbrev Dict := List (Topic × Handler)

/-- `containsKey d k` is Python's `k in d` membership test on a dict. -/
def containsKey : Dict → Topic → Bool
  | [], _ => false
  | (k', _) :: rest, k => if k' = k then true else containsKey rest k

/-- `d[k]` as a total lookup: the value stored at key `k`, if present. -/
def dictLookup : Dict → Topic → Option Handler
  | [], _ => none
  | (k', v) :: rest, k => if k' = k then some v else dictLookup rest k

/-- Overwrite the value stored under `k` with `v`, keeping every entry at its
position. -/
def overwriteKey : Dict → Topic → Handler → Dict
  | [], _, _ => []
  | (k', v') :: rest, k, v =>
    if k' = k then (k, v) :: overwriteKey rest k v
    else (k', v') :: overwriteKey rest k v

/-- Store `v` at key `k`: if the key is present its value is overwritten in
place (position preserved), otherwise the pair is appended — CPython
`d[k] = v`. -/
def dictSet (d : Dict) (k : Topic) (v : Handler) : Dict :=
  if containsKey d k then overwriteKey d k v
  else d ++ [(k, v)]

/-- `d.update(other)`: store every pair of `other`, in `other`'s order, into
`d` — line 151 of `app.py` (`topics_and_callbacks.update(...)`). -/
def dictUpdate : Dict → Dict → Dict
  | d, [] => d
  | d, (k, v) :: rest => dictUpdate (dictSet d k v) rest

/-- The inner loop of lines 154-158 of `App._start`: `success` is true iff
some element of the include list occurs as a substring of the topic. -/
def topicMatches (includeList : List Topic) (topic : Topic) : Bool :=
  includeList.any (fun inc => decide (inc <:+: topic))

/-- The subscription map built by `App._start` (lines 150-160): start from
the static registry, overlay the dynamic bindings with `dict.update`, and —
when `listen_topic_only_if_include` is not `None` — delete every topic that
matches no include substring.  The deletion loop iterates over a copy and
deletes from the dict itself; its net effect on the insertion-ordered dict
is exactly `List.filter`.  The spec calls this contract `buildSubscriptions`. -/
def buildSubscriptions (S D : Dict) (includeList : Option (List Topic)) : Dict :=
  let merged := dictUpdate S D
  match includeList with
  | none => merged
  | some fs => merged.filter (fun p => topicMatches fs p.1)

/- ### Association-list lemmas for the dict model -/

theorem dictLookup_eq_none_of_not_contains {d : Dict} {k : Topic}
    (h : containsKey d k = false) : dictLookup d k = none := by
  induction d with
  | nil => rfl
  | cons p rest ih =>
    obtain ⟨k', v⟩ := p
    by_cases hk : k' = k
    · simp [containsKey, hk] at h
    · simp only [containsKey, hk, if_false] at h
      simp [dictLookup, hk, ih h]

theorem dictLookup_append {a b : Dict} {k : Topic} :
    dictLookup (a ++ b) k =
      match dictLookup a k with
      | some v => some v
      | none => dictLookup b k := by
  induction a with
  | nil => rfl
  | cons p rest ih =>
    obtain ⟨k', v⟩ := p
    by_cases hk : k' = k <;> simp [dictLookup, hk, ih]

theorem dictLookup_overwriteKey_self {d : Dict} {k : Topic} {v : Handler}
    (h : containsKey d k = true) :
    dictLookup (overwriteKey d k v) k = some v := by
  induction d with
  | nil => simp [containsKey] at h
  | cons p rest ih =>
    obtain ⟨k', v'⟩ := p
    by_cases hk : k' = k
    · simp [overwriteKey, hk, dictLookup]
    · simp only [containsKey, hk, if_false] at h
      simp [overwriteKey, hk, dictLookup, ih h]

theorem dictLookup_dictSet_self {d : Dict} {k : Topic} {v : Handler} :
    dictLookup (dictSet d k v) k = some v := by
  cases h : containsKey d k with
  | true =>
    simp only [dictSet, h, if_true]
    exact dictLookup_overwriteKey_self h
  | false =>
    simp only [dictSet, h, Bool.false_eq_true, if_false]
    rw [dictLookup_append, dictLookup_eq_none_of_not_contains h]
    simp [dictLookup]

theorem dictLookup_overwriteKey_ne {d : Dict} {k k' : Topic} {v : Handler}
    (hne : k' ≠ k) :
    dictLookup (overwriteKey d k v) k' = dictLookup d k' := by
  have hne' : ¬(k = k') := fun h => hne h.symm
  induction d with
  | nil => rfl
  | cons p rest ih =>
    obtain ⟨k₀, v₀⟩ := p
    by_cases hk : k₀ = k
    · subst hk
      simp [overwriteKey, dictLookup, hne', ih]
    · simp [overwriteKey, hk, dictLookup, ih]

theorem dictLookup_dictSet_ne {d : Dict} {k k' : Topic} {v : Handler}
    (hne : k' ≠ k) : dictLookup (dictSet d k v) k' = dictLookup d k' := by
  have hne' : ¬(k = k') := fun h => hne h.symm
  cases h : containsKey d k with
  | true =>
    simp only [dictSet, h, if_true]
    exact dictLookup_overwriteKey_ne hne
  | false =>
    simp only [dictSet, h, Bool.false_eq_true, if_false]
    rw [dictLookup_append]
    cases hd : dictLookup d k' with
    | some v' => rfl
    | none => simp [dictLookup, hne']

theorem dictLookup_dictUpdate_of_none {D : Dict} {k : Topic}
    (h : dictLookup D k = none) :
    ∀ S : Dict, dictLookup (dictUpdate S D) k = dictLookup S k := by
  induction D with
  | nil => intro S; rfl
  | cons p rest ih =>
    obtain ⟨k', v⟩ := p
    intro S
    by_cases hk : k' = k
    · simp [dictLookup, hk] at h
    · simp only [dictLookup, hk, if_false] at h
      rw [dictUpdate, ih h, dictLookup_dictSet_ne (Ne.symm hk)]

theorem dictLookup_eq_none_of_not_mem_keys {D : Dict} {k : Topic}
    (h : k ∉ D.map Prod.fst) : dictLookup D k = none := by
  induction D with
  | nil => rfl
  | cons p rest ih =>
    obtain ⟨k', v⟩ := p
    simp only [List.map_cons, List.mem_cons] at h
    push_neg at h
    have h1 : ¬(k' = k) := fun hh => h.1 hh.symm
    simp [dictLookup, h1, ih h.2]

theorem dictLookup_dictUpdate_of_some {D : Dict} {k : Topic} {hd : Handler}
    (hnodup : (D.map Prod.fst).Nodup) (h : dictLookup D k = some hd) :
    ∀ S : Dict, dictLookup (dictUpdate S D) k = some hd := by
  induction D with
  | nil => simp [dictLookup] at h
  | cons p rest ih =>
    obtain ⟨k', v⟩ := p
    simp only [List.map_cons, List.nodup_cons] at hnodup
    intro S
    by_cases hk : k' = k
    · subst hk
      simp only [dictLookup, if_true] at h
      rw [dictUpdate,
        dictLookup_dictUpdate_of_none
          (dictLookup_eq_none_of_not_mem_keys hnodup.1),
        dictLookup_dictSet_self]
      simpa using h
    · simp only [dictLookup, hk, if_false] at h
      rw [dictUpdate]
      exact ih hnodup.2 h _

/- ### Tasks, strategies and the scheduling step -/

/-- A Python callable handed to the task machinery.  `tid` distinguishes
callables; `isCoroutine` records what `asyncio.iscoroutinefunction` returns
for it. -/
structure PyTask where
  tid : Nat
  isCoroutine : Bool
deriving DecidableEq, Repr

/-- The exceptions `App._start_tasks` can raise (`exceptions.py` names the
second class `InitializingIntevalTaskError`, sic). -/
inductive TaskError where
  | initializingTaskError (msg : String)
  | initializingIntevalTaskError (msg : String)
deriving DecidableEq, Repr

/-- Observable side effects of `App._start_tasks`, in program order. -/
inductive SchedEvent where
  /-- `loop.create_task(coro())` -/
  | createTask (t : PyTask)
  /-- `start_thread(task)` -/
  | startThread (t : PyTask)
  /-- `time.sleep(secs)` -/
  | sleep (secs : Nat)
  /-- `self.http_server.start_server()` -/
  | startServer
  /-- `loop.run_until_complete(asyncio.gather(*tasks))`, carrying the task
  set being awaited -/
  | runUntilComplete (awaited : List PyTask)
deriving DecidableEq, Repr

/-- The state of `App` once `_start` has run its assignments and `_start_tasks`
is entered (lines 165-173 set `listen_topics_callbacks`, `tasks` and
`interval_tasks`). `loopTasks` is the set of not-yet-finished tasks already
living on the asyncio event loop when `_start_tasks` runs (what
`asyncio.all_tasks(loop)` returns at line 178). -/
structure StartedState where
  SUBSCRIPTIONS : Dict
  listen_topics_callbacks : Dict
  tasks : List PyTask
  interval_tasks : List (Nat × List PyTask)
  app_strategy : String
  http_server : Bool
  loopTasks : List PyTask
deriving DecidableEq, Repr

/-- The configuration of `App` relevant to `start`/`_start`:
`SUBSCRIPTIONS`/`TASKS`/`INTERVAL_TASKS` are the statically declared
registries inherited from the manager mixins, `tasks` and
`subscribe_topics_and_callbacks` are the caller-supplied constructor
arguments. -/
structure AppState where
  SUBSCRIPTIONS : Dict
  subscribe_topics_and_callbacks : Dict
  listen_topic_only_if_include : Option (List Topic)
  tasks : List PyTask
  TASKS : List PyTask
  INTERVAL_TASKS : List (Nat × List PyTask)
  app_strategy : String
  http_server : Bool
  loopTasks : List PyTask
deriving DecidableEq, Repr

/-- Result of `_start_tasks`: the events that happened before control left
the function, and the exception that aborted it, if any. -/
structure TasksOutcome where
  events : List SchedEvent
  error : Option TaskError
deriving DecidableEq, Repr

/-- The asyncio one-shot loop (lines 179-182) and, with the other error
class, the flattened interval loop (lines 183-188): each task is checked by
`iscoroutinefunction` and immediately handed to `loop.create_task`; the
first non-coroutine raises, aborting the loop with the tasks so far already
scheduled. -/
def createCoroTasks (err : TaskError) : List PyTask → List SchedEvent × Option TaskError
  | [] => ([], none)
  | t :: ts =>
    if t.isCoroutine then
      let rec_result := createCoroTasks err ts
      (SchedEvent.createTask t :: rec_result.1, rec_result.2)
    else ([], some err)

/-- The sync loops (lines 194-197 and 198-203): each task is checked by
`iscoroutinefunction` and immediately handed to `start_thread`; the first
coroutine raises, aborting the loop with the tasks so far already started. -/
def startThreadTasks (err : TaskError) : List PyTask → List SchedEvent × Option TaskError
  | [] => ([], none)
  | t :: ts =>
    if t.isCoroutine then ([], some err)
    else
      let rec_result := startThreadTasks err ts
      (SchedEvent.startThread t :: rec_result.1, rec_result.2)

/-- Iteration order of `for interval in self.interval_tasks: for task in
self.interval_tasks[interval]`: dict insertion order of the interval keys,
then list order. -/
def intervalFlatten (its : List (Nat × List PyTask)) : List PyTask :=
  its.flatMap Prod.snd

/-- `App._start_tasks` (lines 175-205) as an event trace.  In the asyncio
branch, `asyncio.all_tasks(loop)` is snapshotted (line 178) BEFORE the
`loop.create_task` calls, and that snapshot is what
`loop.run_until_complete(asyncio.gather(*tasks))` awaits at line 191.  In
the sync branch nothing is awaited: after `time.sleep(1)`, the thread
launches and the optional synchronous `start_server()`, control returns.
With any other `app_strategy` string the method does nothing. -/
def App._start_tasks (s : StartedState) : TasksOutcome :=
  if s.app_strategy = "asyncio" then
    let snapshot := s.loopTasks
    let oneShot := createCoroTasks
      (TaskError.initializingTaskError
        "For asyncio app_strategy only coroutine tasks allowed") s.tasks
    match oneShot.2 with
    | some e => ⟨oneShot.1, some e⟩
    | none =>
      let intervals := createCoroTasks
        (TaskError.initializingIntevalTaskError
          "For asyncio app_strategy only coroutine interval tasks allowed")
        (intervalFlatten s.interval_tasks)
      match intervals.2 with
      | some e => ⟨oneShot.1 ++ intervals.1, some e⟩
      | none =>
        ⟨oneShot.1 ++ intervals.1 ++
          (if s.http_server then [SchedEvent.startServer] else []) ++
          [SchedEvent.runUntilComplete snapshot], none⟩
  else if s.app_strategy = "sync" then
    let oneShot := startThreadTasks
      (TaskError.initializingIntevalTaskError
        "For sync app_strategy coroutine task doesn't allowed") s.tasks
    match oneShot.2 with
    | some e => ⟨SchedEvent.sleep 1 :: oneShot.1, some e⟩
    | none =>
      let intervals := startThreadTasks
        (TaskError.initializingIntevalTaskError
          "For sync app_strategy coroutine interval_task doesn't allowed")
        (intervalFlatten s.interval_tasks)
      match intervals.2 with
      | some e => ⟨SchedEvent.sleep 1 :: (oneShot.1 ++ intervals.1), some e⟩
      | none =>
        ⟨SchedEvent.sleep 1 :: (oneShot.1 ++ intervals.1 ++
          (if s.http_server then [SchedEvent.startServer] else [])), none⟩
  else ⟨[], none⟩

/-- The tasks actually handed to the scheduler in a trace: the arguments of
the `loop.create_task` / `start_thread` calls, in order. -/
def scheduledOf : List SchedEvent → List PyTask
  | [] => []
  | SchedEvent.createTask t :: es => t :: scheduledOf es
  | SchedEvent.startThread t :: es => t :: scheduledOf es
  | _ :: es => scheduledOf es

/-- The task set awaited by the trace's `run_until_complete` event, if one
occurs. -/
def gatherArg : List SchedEvent → Option (List PyTask)
  | [] => none
  | SchedEvent.runUntilComplete l :: _ => some l
  | _ :: es => gatherArg es

/-- The assignment part of `App._start` (lines 148-172): build the
subscription map, store it (NOTE: `topics_and_callbacks` at line 150 is the
very dict object `self.SUBSCRIPTIONS`, so the in-place `update` and `del`
leave `self.SUBSCRIPTIONS` equal to the merged-and-filtered map), set
`nats_config['listen_topics_callbacks']`, merge the one-shot tasks as
`self.tasks = self.tasks + self.TASKS` (caller-supplied list first, static
`TASKS` appended after), and take the interval tasks as `self.INTERVAL_TASKS`
unchanged. -/
def App._startState (s : AppState) : StartedState :=
  let topics_and_callbacks :=
    buildSubscriptions s.SUBSCRIPTIONS s.subscribe_topics_and_callbacks
      s.listen_topic_only_if_include
  { SUBSCRIPTIONS := topics_and_callbacks
    listen_topics_callbacks := topics_and_callbacks
    tasks := s.tasks ++ s.TASKS
    interval_tasks := s.INTERVAL_TASKS
    app_strategy := s.app_strategy
    http_server := s.http_server
    loopTasks := s.loopTasks }

/-- `App._start` (lines 148-173): the assignments, then `self._start_tasks()`. -/
def App._start (s : AppState) : StartedState × TasksOutcome :=
  let post := App._startState s
  (post, App._start_tasks post)

/-- Observable behaviour of `App.start` (lines 142-146). -/
inductive StartEvent where
  /-- `self._start()` ran to completion in the caller's thread, with this
  result -/
  | runStartInCaller (result : StartedState × TasksOutcome)
  /-- `start_thread(...)` was called — with the `None` value `_start()`
  already returned, since Python evaluates the argument first -/
  | spawnThread
deriving DecidableEq

/-- `App.start`: with an `http_server`, `self._start()` is called directly;
without one, the expression `start_thread(self._start())` first evaluates
`self._start()` to completion in the caller's thread and only then calls
`start_thread` on its `None` return value. -/
def App.start (s : AppState) : List StartEvent :=
  if s.http_server then [StartEvent.runStartInCaller (App._start s)]
  else [StartEvent.runStartInCaller (App._start s), StartEvent.spawnThread]

/- ### Identity resolution -/

/-- Model of Python's `random.randint(a, b)` (stdlib contract): an integer
`N` with `a ≤ N ≤ b`; the draw is determined by an arbitrary seed. -/
def randint (a b seed : Nat) : Nat :=
  a + seed % (b - a + 1)

/-- Python's `'__'.join(parts)`. -/
def joinUnderscore : List String → String
  | [] => ""
  | [x] => x
  | x :: xs => x ++ "__" ++ joinUnderscore xs

/-- `App._create_client_code_by_hostname` (lines 207-212): join the service
name, the `HOSTNAME` environment value (or `'non_docker_env_' +
str(random.randint(1, 1000000))` when the variable is absent) and
`str(random.randint(1, 1000000))` with `'__'`. -/
def App._create_client_code_by_hostname
    (name : String) (hostnameEnv : Option String) (seed1 seed2 : Nat) : String :=
  joinUnderscore [
    name,
    (match hostnameEnv with
     | some h => h
     | none => "non_docker_env_" ++ toString (randint 1 1000000 seed1)),
    toString (randint 1 1000000 seed2)]

/-- Client-id resolution in `App.__init__` (lines 72-75): an explicitly
supplied `client_id` is kept unchanged, otherwise
`_create_client_code_by_hostname(service_name)` derives one.  It is a total
function: resolution never fails. -/
def resolveClientId (clientId : Option String) (serviceName : String)
    (hostnameEnv : Option String) (seed1 seed2 : Nat) : String :=
  match clientId with
  | some c => c
  | none => App._create_client_code_by_hostname serviceName hostnameEnv seed1 seed2

/- ### Concrete fixtures used by witnesses and counterexamples -/

/-- A suspension-style callable (`asyncio.iscoroutinefunction` is true). -/
def coroTask : PyTask := ⟨1, true⟩

/-- A second suspension-style callable. -/
def coroTask2 : PyTask := ⟨2, true⟩

/-- A blocking-style callable (`asyncio.iscoroutinefunction` is false). -/
def plainTask : PyTask := ⟨3, false⟩

/-- A second blocking-style callable. -/
def plainTask2 : PyTask := ⟨4, false⟩

/-- A configuration whose static `TASKS` list and caller-supplied `tasks`
list each hold one (distinct) task. -/
def mergeOrderState : AppState :=
  { SUBSCRIPTIONS := []
    subscribe_topics_and_callbacks := []
    listen_topic_only_if_include := none
    tasks := [coroTask2]
    TASKS := [coroTask]
    INTERVAL_TASKS := []
    app_strategy := "asyncio"
    http_server := false
    loopTasks := [] }

/-- A configuration with one static subscription on topic `"start"` and the
include filter `["foo"]`, which matches no subscribed topic. -/
def filteredState : AppState :=
  { SUBSCRIPTIONS := [("start".toList, 1)]
    subscribe_topics_and_callbacks := []
    listen_topic_only_if_include := some ["foo".toList]
    tasks := []
    TASKS := []
    INTERVAL_TASKS := []
    app_strategy := "asyncio"
    http_server := false
    loopTasks := [] }

/-- An already-assigned state under asyncio whose one-shot list has a valid
coroutine first and a blocking callable second. -/
def mixedAsyncioState : StartedState :=
  { SUBSCRIPTIONS := []
    listen_topics_callbacks := []
    tasks := [coroTask, plainTask]
    interval_tasks := []
    app_strategy := "asyncio"
    http_server := false
    loopTasks := [] }

/-- An already-assigned asyncio state with one valid coroutine task and an
empty event loop. -/
def freshLoopState : StartedState :=
  { SUBSCRIPTIONS := []
    listen_topics_callbacks := []
    tasks := [coroTask]
    interval_tasks := []
    app_strategy := "asyncio"
    http_server := false
    loopTasks := [] }

/- ### Claim theorems -/

/-- C2: with a non-null include filter `F`, the subscription map built at
startup retains exactly those entries of the merged map whose topic contains
some element of `F` as a substring, and with a null filter nothing is
removed. -/
theorem include_filter_retains_exactly_matching_topics
    (S D : Dict) (F : List Topic) (k : Topic) (h : Handler) :
    ((k, h) ∈ buildSubscriptions S D (some F) ↔
      (k, h) ∈ dictUpdate S D ∧ ∃ inc ∈ F, inc <:+: k)
    ∧ buildSubscriptions S D none = dictUpdate S D := by
  refine ⟨?_, rfl⟩
  simp [buildSubscriptions, topicMatches, List.mem_filter, List.any_eq_true]

/-- C3 counterexample: with one static task (`coroTask`) and one
caller-supplied task (`coroTask2`), the merged one-shot sequence built by
`_start` is `[coroTask2, coroTask]` — caller-supplied first — not the
static-first concatenation `[coroTask, coroTask2]` the claim requires. -/
theorem merged_tasks_not_static_first :
    (App._start mergeOrderState).1.tasks ≠ [coroTask, coroTask2]
    ∧ (App._start mergeOrderState).1.tasks = [coroTask2, coroTask] := by
  decide

/-- C3 (amended): the merged one-shot sequence built at startup is the
concatenation of the caller-supplied tasks followed by the statically
declared tasks (`self.tasks = self.tasks + self.TASKS`), the relative order
inside each list preserved. -/
theorem merged_tasks_are_dynamic_then_static (s : AppState) :
    (App._start s).1.tasks = s.tasks ++ s.TASKS := rfl

/-- C5: in the subscription map built at startup (no filter configured), a
topic present in both sources gets the dynamic (caller-supplied) handler,
and a topic present only in the static source keeps its static handler. -/
theorem dynamic_binding_wins_on_collision
    (S D : Dict) (k : Topic) (hnodup : (D.map Prod.fst).Nodup) :
    (∀ hd : Handler, dictLookup D k = some hd →
      dictLookup (buildSubscriptions S D none) k = some hd)
    ∧ (dictLookup D k = none →
      dictLookup (buildSubscriptions S D none) k = dictLookup S k) :=
  ⟨fun _ h => dictLookup_dictUpdate_of_some hnodup h S,
   fun h => dictLookup_dictUpdate_of_none h S⟩

/-- C5 witness: with `S = [("foo", 1)]`, `D = [("foo", 2), ("bar", 3)]`, the
built map returns handler `2` for `"foo"` (dynamic wins) and `S`'s own
handler for a topic absent from `D`. -/
theorem dynamic_binding_wins_on_collision_witness :
    dictLookup (buildSubscriptions [("foo".toList, 1)]
      [("foo".toList, 2), ("bar".toList, 3)] none) ("foo".toList) = some 2
    ∧ dictLookup (buildSubscriptions [("baz".toList, 7)]
      [("foo".toList, 2), ("bar".toList, 3)] none) ("baz".toList) =
        dictLookup [("baz".toList, 7)] ("baz".toList) := by
  refine ⟨?_, ?_⟩
  · exact (dynamic_binding_wins_on_collision [("foo".toList, 1)]
      [("foo".toList, 2), ("bar".toList, 3)] ("foo".toList) (by decide)).1
      2 (by decide)
  · exact (dynamic_binding_wins_on_collision [("baz".toList, 7)]
      [("foo".toList, 2), ("bar".toList, 3)] ("baz".toList) (by decide)).2
      (by decide)

/-- C7: the interval-task mapping installed by `_start` for dispatch is the
statically declared `INTERVAL_TASKS` mapping, unchanged; no caller-supplied
interval tasks are merged in (there is no dynamic interval input at all). -/
theorem interval_tasks_are_static_mapping_unchanged (s : AppState) :
    (App._start s).1.interval_tasks = s.INTERVAL_TASKS := rfl

/-- C9: `_start` aliases the static registry: after it runs, the
`SUBSCRIPTIONS` registry IS the merged-and-filtered map (the in-place
`update`/`del` mutated the shared dict object), so whenever filtering or a
dynamic overlay changes the map, the registry no longer equals the
statically declared bindings. -/
theorem subscriptions_registry_mutated_in_place (s : AppState)
    (hchanged : buildSubscriptions s.SUBSCRIPTIONS
      s.subscribe_topics_and_callbacks s.listen_topic_only_if_include ≠
      s.SUBSCRIPTIONS) :
    (App._start s).1.SUBSCRIPTIONS = buildSubscriptions s.SUBSCRIPTIONS
      s.subscribe_topics_and_callbacks s.listen_topic_only_if_include
    ∧ (App._start s).1.SUBSCRIPTIONS ≠ s.SUBSCRIPTIONS :=
  ⟨rfl, hchanged⟩

/-- C9 witness: with a static subscription on `"start"` and the include
filter `["foo"]`, after `_start` the registry is empty and in particular no
longer equals the declared static bindings. -/
theorem subscriptions_registry_mutated_in_place_witness :
    buildSubscriptions filteredState.SUBSCRIPTIONS
      filteredState.subscribe_topics_and_callbacks
      filteredState.listen_topic_only_if_include ≠ filteredState.SUBSCRIPTIONS
    ∧ (App._start filteredState).1.SUBSCRIPTIONS =
        buildSubscriptions filteredState.SUBSCRIPTIONS
          filteredState.subscribe_topics_and_callbacks
          filteredState.listen_topic_only_if_include
    ∧ (App._start filteredState).1.SUBSCRIPTIONS ≠
        filteredState.SUBSCRIPTIONS := by
  have h := subscriptions_registry_mutated_in_place filteredState (by decide)
  exact ⟨by decide, h.1, h.2⟩

/-- C10: in both branches of `start` — with and without an HTTP server —
`_start` runs synchronously in the caller's thread: the first observable
event is always the completed `_start` call, and in the no-HTTP branch the
`start_thread` call happens only after `self._start()` has been evaluated
to completion. -/
theorem start_runs_start_body_in_caller (s : AppState) :
    (App.start s).head? = some (StartEvent.runStartInCaller (App._start s))
    ∧ (s.http_server = false →
      App.start s = [StartEvent.runStartInCaller (App._start s),
        StartEvent.spawnThread]) := by
  refine ⟨?_, fun h => by simp [App.start, h]⟩
  by_cases h : s.http_server <;> simp [App.start, h]

/-- C10 witness: the property instantiated at a configuration without an
HTTP server. -/
theorem start_runs_start_body_in_caller_witness :
    (App.start mergeOrderState).head? =
      some (StartEvent.runStartInCaller (App._start mergeOrderState))
    ∧ App.start mergeOrderState =
      [StartEvent.runStartInCaller (App._start mergeOrderState),
        StartEvent.spawnThread] := by
  have h := start_runs_start_body_in_caller mergeOrderState
  exact ⟨h.1, h.2 rfl⟩

/- ### Scheduling-loop lemmas -/

theorem createCoroTasks_all_coro {err : TaskError} {l : List PyTask}
    (h : ∀ t ∈ l, t.isCoroutine = true) :
    createCoroTasks err l = (l.map SchedEvent.createTask, none) := by
  induction l with
  | nil => rfl
  | cons t ts ih =>
    have ht := h t (List.mem_cons_self t ts)
    have hts := ih (fun x hx => h x (List.mem_cons_of_mem t hx))
    simp [createCoroTasks, ht, hts]

theorem createCoroTasks_stops_at_first_bad (err : TaskError)
    (v r : List PyTask) (b : PyTask)
    (hv : ∀ t ∈ v, t.isCoroutine = true) (hb : b.isCoroutine = false) :
    createCoroTasks err (v ++ b :: r) = (v.map SchedEvent.createTask, some err) := by
  induction v with
  | nil => simp [createCoroTasks, hb]
  | cons t ts ih =>
    have ht := hv t (List.mem_cons_self t ts)
    have hts := ih (fun x hx => hv x (List.mem_cons_of_mem t hx))
    simp [createCoroTasks, ht, hts]

theorem startThreadTasks_all_plain {err : TaskError} {l : List PyTask}
    (h : ∀ t ∈ l, t.isCoroutine = false) :
    startThreadTasks err l = (l.map SchedEvent.startThread, none) := by
  induction l with
  | nil => rfl
  | cons t ts ih =>
    have ht := h t (List.mem_cons_self t ts)
    have hts := ih (fun x hx => h x (List.mem_cons_of_mem t hx))
    simp [startThreadTasks, ht, hts]

theorem startThreadTasks_stops_at_first_bad (err : TaskError)
    (v r : List PyTask) (b : PyTask)
    (hv : ∀ t ∈ v, t.isCoroutine = false) (hb : b.isCoroutine = true) :
    startThreadTasks err (v ++ b :: r) = (v.map SchedEvent.startThread, some err) := by
  induction v with
  | nil => simp [startThreadTasks, hb]
  | cons t ts ih =>
    have ht := hv t (List.mem_cons_self t ts)
    have hts := ih (fun x hx => hv x (List.mem_cons_of_mem t hx))
    simp [startThreadTasks, ht, hts]

theorem scheduledOf_map_createTask (l : List PyTask) :
    scheduledOf (l.map SchedEvent.createTask) = l := by
  induction l with
  | nil => rfl
  | cons t ts ih => simp [scheduledOf, ih]

theorem scheduledOf_map_startThread (l : List PyTask) :
    scheduledOf (l.map SchedEvent.startThread) = l := by
  induction l with
  | nil => rfl
  | cons t ts ih => simp [scheduledOf, ih]

theorem gatherArg_append_of_none {xs ys : List SchedEvent}
    (h : gatherArg xs = none) : gatherArg (xs ++ ys) = gatherArg ys := by
  induction xs with
  | nil => rfl
  | cons e es ih =>
    cases e with
    | runUntilComplete l => simp [gatherArg] at h
    | createTask t =>
      simp only [gatherArg] at h
      simpa [gatherArg] using ih h
    | startThread t =>
      simp only [gatherArg] at h
      simpa [gatherArg] using ih h
    | sleep secs =>
      simp only [gatherArg] at h
      simpa [gatherArg] using ih h
    | startServer =>
      simp only [gatherArg] at h
      simpa [gatherArg] using ih h

theorem gatherArg_createCoroTasks (err : TaskError) (l : List PyTask) :
    gatherArg (createCoroTasks err l).1 = none := by
  induction l with
  | nil => rfl
  | cons t ts ih =>
    by_cases ht : t.isCoroutine <;> simp [createCoroTasks, ht, gatherArg, ih]

/- ### Claim theorems on the scheduling step -/

/-- C1 counterexample: under asyncio, `tasks = [coroTask, plainTask]` makes
`_start_tasks` raise the configuration error with `coroTask` ALREADY handed
to the scheduler — partial scheduling is observable, contradicting the claim
that no task has been scheduled when the error is raised, regardless of the
offending task's position. -/
theorem mismatch_error_after_partial_scheduling :
    (App._start_tasks mixedAsyncioState).error ≠ none
    ∧ scheduledOf (App._start_tasks mixedAsyncioState).events = [coroTask] := by
  decide

/-- C1 (amended): a task whose execution mode mismatches the strategy still
makes `_start_tasks` raise the configuration error, but validation is
interleaved with scheduling: the error is raised on reaching the first
offending one-shot task, at which point exactly the tasks preceding it in
the list have already been handed to the scheduler — so no task is scheduled
only when the offending task comes first. -/
theorem mismatch_error_raised_at_offending_task
    (subs : Dict) (its : List (Nat × List PyTask)) (http : Bool)
    (lt v1 r1 v2 r2 : List PyTask) (b1 b2 : PyTask)
    (hv1 : ∀ t ∈ v1, t.isCoroutine = true) (hb1 : b1.isCoroutine = false)
    (hv2 : ∀ t ∈ v2, t.isCoroutine = false) (hb2 : b2.isCoroutine = true) :
    ((App._start_tasks
        ⟨subs, subs, v1 ++ b1 :: r1, its, "asyncio", http, lt⟩).error =
      some (TaskError.initializingTaskError
        "For asyncio app_strategy only coroutine tasks allowed")
    ∧ scheduledOf (App._start_tasks
        ⟨subs, subs, v1 ++ b1 :: r1, its, "asyncio", http, lt⟩).events = v1)
    ∧ ((App._start_tasks
        ⟨subs, subs, v2 ++ b2 :: r2, its, "sync", http, lt⟩).error =
      some (TaskError.initializingIntevalTaskError
        "For sync app_strategy coroutine task doesn't allowed")
    ∧ scheduledOf (App._start_tasks
        ⟨subs, subs, v2 ++ b2 :: r2, its, "sync", http, lt⟩).events = v2) := by
  constructor
  · have h := createCoroTasks_stops_at_first_bad
      (TaskError.initializingTaskError
        "For asyncio app_strategy only coroutine tasks allowed")
      v1 r1 b1 hv1 hb1
    simp [App._start_tasks, h, scheduledOf_map_createTask]
  · have h := startThreadTasks_stops_at_first_bad
      (TaskError.initializingIntevalTaskError
        "For sync app_strategy coroutine task doesn't allowed")
      v2 r2 b2 hv2 hb2
    simp [App._start_tasks, h, scheduledOf, scheduledOf_map_startThread]

/-- C1 amended witness: the amended property at `v1 = [coroTask]`,
`b1 = plainTask` (asyncio) and `v2 = [plainTask2]`, `b2 = coroTask2`
(sync). -/
theorem mismatch_error_raised_at_offending_task_witness :
    ((App._start_tasks
        ⟨[], [], [coroTask, plainTask], [], "asyncio", false, []⟩).error =
      some (TaskError.initializingTaskError
        "For asyncio app_strategy only coroutine tasks allowed")
    ∧ scheduledOf (App._start_tasks
        ⟨[], [], [coroTask, plainTask], [], "asyncio", false, []⟩).events =
      [coroTask])
    ∧ ((App._start_tasks
        ⟨[], [], [plainTask2, coroTask2], [], "sync", false, []⟩).error =
      some (TaskError.initializingIntevalTaskError
        "For sync app_strategy coroutine task doesn't allowed")
    ∧ scheduledOf (App._start_tasks
        ⟨[], [], [plainTask2, coroTask2], [], "sync", false, []⟩).events =
      [plainTask2]) := by
  have h := mismatch_error_raised_at_offending_task
    [] [] false [] [coroTask] [] [plainTask2] [] plainTask coroTask2
    (by decide) (by decide) (by decide) (by decide)
  simpa using h

/-- C4 counterexample: under asyncio with an empty event loop and the single
valid task `coroTask`, `_start_tasks` completes scheduling without error,
hands `coroTask` to the loop, yet blocks on `gather` over the EMPTY snapshot
taken before scheduling: the awaited set does not contain the newly created
task. -/
theorem awaited_set_misses_new_tasks :
    (App._start_tasks freshLoopState).error = none
    ∧ scheduledOf (App._start_tasks freshLoopState).events = [coroTask]
    ∧ gatherArg (App._start_tasks freshLoopState).events = some []
    ∧ coroTask ∉ ([] : List PyTask) := by
  decide

/-- C4 (amended): under asyncio, after scheduling the one-shot tasks, the
interval tasks, and the optional HTTP listener, the orchestrator blocks on
`run_until_complete(gather(*tasks))` as its final action — but over the
snapshot of the loop's tasks taken BEFORE this scheduling step
(`asyncio.all_tasks` at line 178), which does not include the units just
created. -/
theorem orchestrator_waits_on_pre_scheduling_snapshot
    (s : StartedState) (hstrat : s.app_strategy = "asyncio")
    (herr : (App._start_tasks s).error = none) :
    gatherArg (App._start_tasks s).events = some s.loopTasks
    ∧ (App._start_tasks s).events.getLast? =
      some (SchedEvent.runUntilComplete s.loopTasks) := by
  rcases h1 : createCoroTasks
      (TaskError.initializingTaskError
        "For asyncio app_strategy only coroutine tasks allowed") s.tasks
    with ⟨evs1, e1⟩
  rcases h2 : createCoroTasks
      (TaskError.initializingIntevalTaskError
        "For asyncio app_strategy only coroutine interval tasks allowed")
      (intervalFlatten s.interval_tasks)
    with ⟨evs2, e2⟩
  cases e1 with
  | some e =>
    rw [App._start_tasks] at herr
    simp [hstrat, h1] at herr
  | none =>
    cases e2 with
    | some e =>
      rw [App._start_tasks] at herr
      simp [hstrat, h1, h2] at herr
    | none =>
      have hevs1 : gatherArg evs1 = none := by
        simpa [h1] using gatherArg_createCoroTasks
          (TaskError.initializingTaskError
            "For asyncio app_strategy only coroutine tasks allowed") s.tasks
      have hevs2 : gatherArg evs2 = none := by
        simpa [h2] using gatherArg_createCoroTasks
          (TaskError.initializingIntevalTaskError
            "For asyncio app_strategy only coroutine interval tasks allowed")
          (intervalFlatten s.interval_tasks)
      have hhttp : gatherArg
          (if s.http_server then [SchedEvent.startServer] else []) = none := by
        by_cases hh : s.http_server <;> simp [hh, gatherArg]
      have hout : App._start_tasks s =
          ⟨evs1 ++ evs2 ++
            (if s.http_server then [SchedEvent.startServer] else []) ++
            [SchedEvent.runUntilComplete s.loopTasks], none⟩ := by
        rw [App._start_tasks]
        simp [hstrat, h1, h2]
      have h12 : gatherArg (evs1 ++ evs2) = none := by
        rw [gatherArg_append_of_none hevs1]; exact hevs2
      have h123 : gatherArg (evs1 ++ evs2 ++
          (if s.http_server then [SchedEvent.startServer] else [])) = none := by
        rw [gatherArg_append_of_none h12]; exact hhttp
      refine ⟨?_, ?_⟩
      · rw [hout]
        show gatherArg (evs1 ++ evs2 ++ _ ++
          [SchedEvent.runUntilComplete s.loopTasks]) = _
        rw [gatherArg_append_of_none h123]
        rfl
      · rw [hout]
        exact List.getLast?_concat _

/-- C4 amended witness: the amended property at an asyncio configuration
with one pre-existing loop task and one valid new task: the awaited set is
exactly the pre-existing snapshot. -/
theorem orchestrator_waits_on_pre_scheduling_snapshot_witness :
    gatherArg (App._start_tasks
      ⟨[], [], [coroTask], [], "asyncio", false, [coroTask2]⟩).events =
        some [coroTask2]
    ∧ (App._start_tasks
      ⟨[], [], [coroTask], [], "asyncio", false, [coroTask2]⟩).events.getLast? =
        some (SchedEvent.runUntilComplete [coroTask2]) := by
  have h := orchestrator_waits_on_pre_scheduling_snapshot
    ⟨[], [], [coroTask], [], "asyncio", false, [coroTask2]⟩ rfl (by decide)
  exact h

/-- C8: under the sync strategy with well-typed (blocking) tasks, the
startup trace is exactly: the fixed one-second pause, then one thread per
one-shot task in list order, then one thread per interval task in mapping
order, then — when configured — the synchronous HTTP-listener start; no
further blocking action (no `run_until_complete`) follows, and control
returns without error. -/
theorem sync_startup_trace_in_order (s : StartedState)
    (hstrat : s.app_strategy = "sync")
    (h1 : ∀ t ∈ s.tasks, t.isCoroutine = false)
    (h2 : ∀ t ∈ intervalFlatten s.interval_tasks, t.isCoroutine = false) :
    App._start_tasks s =
      ⟨SchedEvent.sleep 1 :: (s.tasks.map SchedEvent.startThread ++
        ((intervalFlatten s.interval_tasks).map SchedEvent.startThread ++
          (if s.http_server then [SchedEvent.startServer] else []))), none⟩ := by
  rw [App._start_tasks]
  rw [startThreadTasks_all_plain h1, startThreadTasks_all_plain h2]
  simp [hstrat]

/-- C8 witness: the sync trace at a configuration with one one-shot task,
one interval task and an HTTP server. -/
theorem sync_startup_trace_in_order_witness :
    App._start_tasks
      ⟨[], [], [plainTask], [(5, [plainTask2])], "sync", true, []⟩ =
      ⟨[SchedEvent.sleep 1, SchedEvent.startThread plainTask,
        SchedEvent.startThread plainTask2, SchedEvent.startServer], none⟩ := by
  have h := sync_startup_trace_in_order
    ⟨[], [], [plainTask], [(5, [plainTask2])], "sync", true, []⟩
    rfl (by decide) (by decide)
  simpa [intervalFlatten] using h

/-- C6: identity resolution returns an explicit client id unchanged; with no
explicit id it derives `serviceName__hostToken__randomToken`, where the host
token is the `HOSTNAME` environment value when present and otherwise
`non_docker_env_` followed by a random token, and both random tokens lie in
`1..1_000_000`; being a total function, resolution never fails. -/
theorem client_id_resolution (serviceName c : String)
    (hostnameEnv : Option String) (s1 s2 : Nat) :
    resolveClientId (some c) serviceName hostnameEnv s1 s2 = c
    ∧ resolveClientId none serviceName hostnameEnv s1 s2 =
        serviceName ++ "__" ++
          (match hostnameEnv with
           | some h => h
           | none => "non_docker_env_" ++ toString (randint 1 1000000 s1)) ++
          "__" ++ toString (randint 1 1000000 s2)
    ∧ 1 ≤ randint 1 1000000 s1 ∧ randint 1 1000000 s1 ≤ 1000000
    ∧ 1 ≤ randint 1 1000000 s2 ∧ randint 1 1000000 s2 ≤ 1000000 := by
  refine ⟨rfl, ?_, ?_, ?_, ?_, ?_⟩
  · cases hostnameEnv with
    | some h =>
      simp [resolveClientId, App._create_client_code_by_hostname,
        joinUnderscore, String.append_assoc]
    | none =>
      simp [resolveClientId, App._create_client_code_by_hostname,
        joinUnderscore, String.append_assoc]
  all_goals simp only [randint]
  all_goals omega

end Anthill
